import Mathlib

/-!
Shallow embedding of the mini-ecommerce server (src/index.js).

Documents of the MongoDB collections are modelled as association lists of
JSON-like scalar values; a collection is a list of documents together with a
counter supplying fresh object identifiers.  The bcrypt primitives
(`bcrypt.hash` with its random salt, `bcrypt.compare`) and the JavaScript
date parser (`new Date(string)`) are external libraries and are passed to
the handlers as function parameters.  Each Express route handler becomes a
pure function from the request (already JSON-parsed, string-typed fields)
and the collection state to an HTTP response and the new collection state.
JavaScript truthiness on a string body field (`!name`) is emptiness of the
string; an absent field is modelled as the empty string, which is falsy in
the same way.
-/

/-- JSON-like scalar values appearing in stored documents. -/
inductive JVal where
  | str (s : String)
  | num (n : Int)
  | bool (b : Bool)
  | date (ms : Int)
  | oid (n : Nat)
  | null
deriving Repr, DecidableEq

/-- A BSON document: an association list from field names to values
(JSON object keys are unique, later duplicates having collapsed at parse
time). -/
abbrev Doc := List (String × JVal)

/-- Field lookup in a document (`doc.field` / Mongo field match). -/
def jget : Doc → String → Option JVal
  | [], _ => none
  | (k', v) :: rest, k => if k' = k then some v else jget rest k

/-- JavaScript property assignment `doc[k] = v`: replaces the first binding
of `k`, or appends the binding if `k` is absent. -/
def setKey : Doc → String → JVal → Doc
  | [], k, v => [(k, v)]
  | (k', v') :: rest, k, v =>
    if k' = k then (k, v) :: rest else (k', v') :: setKey rest k v

/-- Mongo `$set` with document `patch`: a shallow merge of exactly the keys
present in `patch` onto `d`. -/
def applySet (d : Doc) (patch : Doc) : Doc :=
  patch.foldl (fun acc kv => setKey acc kv.1 kv.2) d

/-- JavaScript truthiness of a JSON value. -/
def JVal.truthy : JVal → Bool
  | .str s => !(s = "")
  | .num n => !(n = 0)
  | .bool b => b
  | .date _ => true
  | .oid _ => true
  | .null => false

/-- JavaScript truthiness of a string body field. -/
def truthyStr (s : String) : Bool := !(s = "")

/-- JavaScript truthiness of an optional query-string parameter
(`undefined` and the empty string are falsy). -/
def truthyQ : Option String → Bool
  | some s => !(s = "")
  | none => false

/-- ASCII lowercasing of a character, as `toLowerCase()` acts on ASCII. -/
def lowerChar (c : Char) : Char :=
  if 'A' ≤ c && c ≤ 'Z' then Char.ofNat (c.toNat + 32) else c

/-- JavaScript `s.toLowerCase()` (restricted to its ASCII action). -/
def strToLower (s : String) : String := ⟨s.toList.map lowerChar⟩

/-- A MongoDB collection: the stored documents in insertion order and the
counter generating fresh object identifiers. -/
structure Store where
  docs : List Doc
  nextId : Nat
deriving Repr, DecidableEq

/-- `collection.findOne({k: v})`: the first document whose field `k` equals
`v` exactly. -/
def findByField (docs : List Doc) (k : String) (v : JVal) : Option Doc :=
  docs.find? (fun d => jget d k == some v)

/-- `collection.insertOne(d)`: appends the document, stamped with a fresh
`_id`, and returns the inserted identifier. -/
def insertOne (st : Store) (d : Doc) : Nat × Store :=
  (st.nextId, ⟨st.docs ++ [("_id", JVal.oid st.nextId) :: d], st.nextId + 1⟩)

/-- Hexadecimal digit predicate, as accepted in an object-id string. -/
def isHexChar (c : Char) : Bool :=
  c.isDigit || ('a' ≤ c && c ≤ 'f') || ('A' ≤ c && c ≤ 'F')

/-- Modelled from the spec: `ObjectId.isValid` of the store driver (not part
of src/).  §3: identifiers are 12-byte binary object ids represented
externally as strings; "string values that do not conform to this format are
rejected before being used in a lookup".  The conforming string form is the
24-character hexadecimal rendering. -/
def isValidObjectId (s : String) : Bool :=
  s.length == 24 && s.toList.all isHexChar

/-- Numeric value of a hexadecimal digit. -/
def hexVal (c : Char) : Nat :=
  if c.isDigit then c.toNat - 48
  else if 'a' ≤ c && c ≤ 'f' then c.toNat - 87
  else if 'A' ≤ c && c ≤ 'F' then c.toNat - 55
  else 0

/-- Numeric value of a hexadecimal string. -/
def hexToNat (s : String) : Nat :=
  s.toList.foldl (fun a c => a * 16 + hexVal c) 0

/-- Modelled from the spec: `new ObjectId(s)` of the store driver (not part
of src/) — parses a conforming identifier string, and throws on a
non-conforming one (the thrown error is surfaced by the handlers' catch
blocks). -/
def newObjectId (s : String) : Except String Nat :=
  if isValidObjectId s then .ok (hexToNat s)
  else .error "input must be a 24 character hex string"

/-- `ObjectId.toString()`: the 24-character hexadecimal rendering of an
identifier. -/
def oidToString (n : Nat) : String :=
  let ds := Nat.toDigits 16 n
  ⟨List.replicate (24 - ds.length) '0' ++ ds⟩

/-- A value of an HTTP JSON response body: either a scalar or a nested
one-level object (the `user` sub-object of the auth responses). -/
inductive BVal where
  | prim (v : JVal)
  | nested (d : Doc)
deriving Repr, DecidableEq

/-- An HTTP response body: a JSON object, a JSON array of documents
(`GET /products`), or a bare document (`GET /product/:id`). -/
inductive Body where
  | obj (fs : List (String × BVal))
  | arr (ds : List Doc)
  | doc (d : Doc)
deriving Repr, DecidableEq

/-- An HTTP response (status code defaults to 200 on `res.send`). -/
structure Response where
  status : Nat
  body : Body
deriving Repr, DecidableEq

/-- `res.status(c).send({error: msg})`. -/
def errResp (c : Nat) (msg : String) : Response :=
  ⟨c, .obj [("error", .prim (.str msg))]⟩

/-- The string leaves of a JSON value. -/
def jvalStrs : JVal → List String
  | .str s => [s]
  | _ => []

/-- The string leaves of a body value. -/
def bvalStrs : BVal → List String
  | .prim v => jvalStrs v
  | .nested d => d.flatMap (fun kv => jvalStrs kv.2)

/-- All string leaves occurring as values in a response body. -/
def bodyStrs : Body → List String
  | .obj fs => fs.flatMap (fun kv => bvalStrs kv.2)
  | .arr ds => ds.flatMap (fun d => d.flatMap (fun kv => jvalStrs kv.2))
  | .doc d => d.flatMap (fun kv => jvalStrs kv.2)

/-- `POST /signup` request body. -/
structure SignupReq where
  name : String
  email : String
  username : String
  password : String
deriving Repr, DecidableEq

/-- The user document built by the signup handler (before `_id` stamping). -/
def signupDoc (hashFn : String → String) (now : Int) (req : SignupReq) : Doc :=
  [("name", .str req.name),
   ("email", .str req.email),
   ("username", .str req.username),
   ("password", .str (hashFn req.password)),
   ("createdAt", .date now)]

/-- `POST /signup` handler (src/index.js lines 36-74).  `hashFn` stands for
`bcrypt.hash` with its salt already drawn (cost factor 10); `now` is the
server clock read by `new Date()`. -/
def signup (hashFn : String → String) (now : Int) (req : SignupReq)
    (st : Store) : Response × Store :=
  if !(truthyStr req.name && truthyStr req.email &&
       truthyStr req.username && truthyStr req.password) then
    (errResp 400 "All fields are required", st)
  else
    match findByField st.docs "email" (.str req.email) with
    | some _ => (errResp 409 "Email already registered", st)
    | none =>
      let (iid, st') := insertOne st (signupDoc hashFn now req)
      (⟨200, .obj [("success", .prim (.bool true)),
                   ("message", .prim (.str "User registered successfully")),
                   ("userId", .prim (.oid iid))]⟩, st')

/-- `POST /login` request body. -/
structure LoginReq where
  email : String
  password : String
deriving Repr, DecidableEq

/-- `x.toString()` on a defined, non-null JavaScript value; `none` models
the `TypeError` thrown on `undefined` or `null`. -/
def jsToString : Option JVal → Option String
  | some (.oid n) => some (oidToString n)
  | some (.str s) => some s
  | some (.num n) => some (toString n)
  | some (.bool b) => some (cond b "true" "false")
  | some (.date m) => some (toString m)
  | _ => none

/-- A field of the public user view: included with its stored value when
present, omitted (JSON serialization drops `undefined`) when absent. -/
def viewField (u : Doc) (k : String) : Doc :=
  match jget u k with
  | some v => [(k, v)]
  | none => []

/-- `POST /login` handler (src/index.js lines 77-114).  `compareFn` stands
for `bcrypt.compare`; `bcrypt.compare` throws when the stored hash is not a
string (e.g. a google-signup account with no password field), which the
catch block maps to 500. -/
def login (compareFn : String → String → Bool) (req : LoginReq)
    (st : Store) : Response :=
  if !(truthyStr req.email && truthyStr req.password) then
    errResp 400 "Email and password required"
  else
    match findByField st.docs "email" (.str (strToLower req.email)) with
    | none => errResp 401 "Invalid credentials"
    | some u =>
      match jget u "password" with
      | some (.str h) =>
        if compareFn req.password h then
          match jsToString (jget u "_id") with
          | some ids =>
            ⟨200, .obj [("success", .prim (.bool true)),
                        ("user", .nested (("id", .str ids) ::
                          (viewField u "name" ++ viewField u "email" ++
                           viewField u "username")))]⟩
          | none => errResp 500 "Cannot read properties of undefined"
        else errResp 401 "Invalid credentials"
      | _ => errResp 500 "Illegal arguments: string, undefined"

/-- `POST /google-signup` request body. -/
structure GoogleReq where
  email : String
  name : String
  googleId : String
deriving Repr, DecidableEq

/-- The user document built by the google-signup handler (no password
field). -/
def googleDoc (now : Int) (req : GoogleReq) : Doc :=
  [("name", .str req.name),
   ("email", .str req.email),
   ("googleId", .str req.googleId),
   ("createdAt", .date now)]

/-- `POST /google-signup` handler (src/index.js lines 117-145).  When the
user is absent the driver's `insertOne` stamps `_id` onto the passed object,
so the spread `{...newUser, id}` in the response carries both `_id` and the
string `id`. -/
def googleSignup (now : Int) (req : GoogleReq) (st : Store) :
    Response × Store :=
  if !(truthyStr req.email && truthyStr req.name && truthyStr req.googleId) then
    (errResp 400 "Missing required fields", st)
  else
    match findByField st.docs "email" (.str req.email) with
    | some u => (⟨200, .obj [("success", .prim (.bool true)),
                             ("user", .nested u)]⟩, st)
    | none =>
      let (iid, st') := insertOne st (googleDoc now req)
      (⟨200, .obj [("success", .prim (.bool true)),
                   ("user", .nested (googleDoc now req ++
                     [("_id", .oid iid), ("id", .str (oidToString iid))]))]⟩,
       st')

/-- Whether `small` occurs at the start of `big`. -/
def leadsList : List Char → List Char → Bool
  | [], _ => true
  | _ :: _, [] => false
  | a :: as, b :: bs => a == b && leadsList as bs

/-- Whether `small` occurs contiguously anywhere inside `big`. -/
def occursIn (small : List Char) : List Char → Bool
  | [] => leadsList small []
  | b :: bs => leadsList small (b :: bs) || occursIn small bs

/-- Modelled from the spec: the store's `$regex` filter with option `"i"`
(not part of src/), which the spec describes as "case-insensitive substring
match on title": the pattern occurs inside the field value, ignoring
case. -/
def regexMatchCI (pat text : String) : Bool :=
  occursIn (strToLower pat).toList (strToLower text).toList

/-- `GET /products` query string. -/
structure ListQuery where
  category : Option String
  search : Option String
deriving Repr, DecidableEq

/-- The Mongo filter document built by the products handler: exact match on
`category` when that parameter is truthy, case-insensitive `$regex` on
`title` when `search` is truthy; a document must satisfy every clause. -/
def productFilter (q : ListQuery) (d : Doc) : Bool :=
  (if truthyQ q.category then jget d "category" == some (.str (q.category.getD ""))
   else true) &&
  (if truthyQ q.search then
     (match jget d "title" with
      | some (.str t) => regexMatchCI (q.search.getD "") t
      | _ => false)
   else true)

/-- `GET /products` handler (src/index.js lines 151-169). -/
def listProducts (q : ListQuery) (st : Store) : Response :=
  ⟨200, .arr (st.docs.filter (productFilter q))⟩

/-- The documents carried by a list response. -/
def resultDocs (r : Response) : List Doc :=
  match r.body with
  | .arr ds => ds
  | _ => []

/-- `GET /product/:id` handler (src/index.js lines 172-184): no up-front id
validation; a malformed id makes `new ObjectId` throw, which the catch block
surfaces as 500. -/
def getProduct (id : String) (st : Store) : Response :=
  match newObjectId id with
  | .error msg => errResp 500 msg
  | .ok n =>
    match findByField st.docs "_id" (.oid n) with
    | none => errResp 404 "Product not found"
    | some d => ⟨200, .doc d⟩

/-- `new Date(v)` on a truthy patch value: parses a string with the
JavaScript date parser `parseDate`, reads a number as a millisecond
timestamp, clones a date; other truthy inputs give an invalid date. -/
def jsNewDate (parseDate : String → Int) : JVal → JVal
  | .str s => .date (parseDate s)
  | .num n => .date n
  | .date m => .date m
  | _ => .date 0

/-- The released-date coercion of the update handler: when the patch has a
truthy `released_date`, its value is replaced in place by
`new Date(value)`. -/
def coerceDate (parseDate : String → Int) (patch : Doc) : Doc :=
  match jget patch "released_date" with
  | some v =>
    if v.truthy then setKey patch "released_date" (jsNewDate parseDate v)
    else patch
  | none => patch

/-- Mongo `updateOne` with a `$set` patch: shallow-merges the patch onto the
first document whose `_id` matches, returning the matched and modified
counts together with the new document list. -/
def updateDocs (oidv : Nat) (patch : Doc) : List Doc → (Nat × Nat) × List Doc
  | [] => ((0, 0), [])
  | d :: rest =>
    if jget d "_id" == some (.oid oidv) then
      ((1, if applySet d patch == d then 0 else 1), applySet d patch :: rest)
    else
      let r := updateDocs oidv patch rest
      (r.1, d :: r.2)

/-- The store's update acknowledgment, as serialized by `res.send`. -/
def updResultBody (m k : Nat) : Body :=
  .obj [("acknowledged", .prim (.bool true)),
        ("matchedCount", .prim (.num m)),
        ("modifiedCount", .prim (.num k))]

/-- `PATCH /product/:id` handler (src/index.js lines 198-225): validates the
id format up front (400 on failure), coerces `released_date`, then issues a
single `updateOne` with `$set` of the request body. -/
def updateProduct (parseDate : String → Int) (id : String) (patch : Doc)
    (st : Store) : Response × Store :=
  if !(isValidObjectId id) then
    (errResp 400 "Invalid product ID", st)
  else
    let patch' := coerceDate parseDate patch
    let r := updateDocs (hexToNat id) patch' st.docs
    (⟨200, updResultBody r.1.1 r.1.2⟩, ⟨r.2, st.nextId⟩)

/-- Mongo `deleteOne` by `_id`: removes the first matching document,
returning the deleted count and the new document list. -/
def deleteDocs (oidv : Nat) : List Doc → Nat × List Doc
  | [] => (0, [])
  | d :: rest =>
    if jget d "_id" == some (.oid oidv) then (1, rest)
    else
      let r := deleteDocs oidv rest
      (r.1, d :: r.2)

/-- `DELETE /product/:id` handler (src/index.js lines 228-238): no up-front
id validation; a malformed id makes `new ObjectId` throw, surfaced as
500. -/
def deleteProduct (id : String) (st : Store) : Response × Store :=
  match newObjectId id with
  | .error msg => (errResp 500 msg, st)
  | .ok n =>
    let r := deleteDocs n st.docs
    (⟨200, .obj [("acknowledged", .prim (.bool true)),
                 ("deletedCount", .prim (.num r.1))]⟩, ⟨r.2, st.nextId⟩)

/-- Spec-side (§4.2): the document's category field equals the category
parameter exactly. -/
def specCategoryMatch (c : String) (d : Doc) : Prop :=
  jget d "category" = some (.str c)

/-- Spec-side (§4.2): the document's title contains the search parameter as
a case-insensitive substring. -/
def specSearchMatch (s : String) (d : Doc) : Prop :=
  ∃ t l r, jget d "title" = some (.str t) ∧
    (strToLower t).toList = l ++ (strToLower s).toList ++ r

/-! ### Association-list lemmas -/

theorem jget_setKey_same (d : Doc) (k : String) (v : JVal) :
    jget (setKey d k v) k = some v := by
  induction d with
  | nil => simp [setKey, jget]
  | cons kv rest ih =>
    obtain ⟨k', v'⟩ := kv
    by_cases h : k' = k
    · simp [setKey, h, jget]
    · simp [setKey, h, jget, ih]

theorem jget_setKey_other (d : Doc) (k k2 : String) (v : JVal)
    (h : k2 ≠ k) : jget (setKey d k v) k2 = jget d k2 := by
  induction d with
  | nil => simp [setKey, jget, Ne.symm h]
  | cons kv rest ih =>
    obtain ⟨k', v'⟩ := kv
    by_cases hk : k' = k
    · subst hk
      simp [setKey, jget, Ne.symm h]
    · simp [setKey, hk, jget, ih]

theorem jget_eq_none_of_not_mem_keys (p : Doc) (k : String)
    (h : k ∉ p.map Prod.fst) : jget p k = none := by
  induction p with
  | nil => rfl
  | cons kv rest ih =>
    obtain ⟨k', v'⟩ := kv
    simp only [List.map_cons, List.mem_cons] at h
    push_neg at h
    simp [jget, Ne.symm h.1, ih h.2]

theorem applySet_cons (d : Doc) (k : String) (v : JVal) (rest : Doc) :
    applySet d ((k, v) :: rest) = applySet (setKey d k v) rest := rfl

theorem jget_applySet_of_none (patch : Doc) (d : Doc) (k : String)
    (h : jget patch k = none) : jget (applySet d patch) k = jget d k := by
  induction patch generalizing d with
  | nil => rfl
  | cons kv rest ih =>
    obtain ⟨k0, v0⟩ := kv
    by_cases hk : k0 = k
    · simp [jget, hk] at h
    · simp only [jget, hk, if_false] at h
      rw [applySet_cons, ih _ h, jget_setKey_other _ _ _ _ (fun hh => hk hh.symm)]

theorem jget_applySet_of_some (patch : Doc) (d : Doc) (k : String) (v : JVal)
    (hnd : (patch.map Prod.fst).Nodup) (h : jget patch k = some v) :
    jget (applySet d patch) k = some v := by
  induction patch generalizing d with
  | nil => simp [jget] at h
  | cons kv rest ih =>
    obtain ⟨k0, v0⟩ := kv
    simp only [List.map_cons, List.nodup_cons] at hnd
    by_cases hk : k0 = k
    · subst hk
      rw [applySet_cons,
        jget_applySet_of_none _ _ _ (jget_eq_none_of_not_mem_keys _ _ hnd.1),
        jget_setKey_same]
      simpa [jget] using h
    · simp only [jget, hk, if_false] at h
      rw [applySet_cons, ih _ hnd.2 h]

theorem keys_setKey_of_mem (p : Doc) (k : String) (v w : JVal)
    (h : jget p k = some w) :
    (setKey p k v).map Prod.fst = p.map Prod.fst := by
  induction p with
  | nil => simp [jget] at h
  | cons kv rest ih =>
    obtain ⟨k', v'⟩ := kv
    by_cases hk : k' = k
    · simp [setKey, hk]
    · simp only [jget, hk, if_false] at h
      simp [setKey, hk, ih h]

/-! ### Released-date coercion lemmas -/

theorem jget_coerceDate_other (pd : String → Int) (p : Doc) (k : String)
    (h : k ≠ "released_date") : jget (coerceDate pd p) k = jget p k := by
  unfold coerceDate
  cases hrd : jget p "released_date" with
  | none => rfl
  | some v =>
    by_cases ht : v.truthy
    · simp [ht, jget_setKey_other _ _ _ _ h]
    · simp [ht]

theorem jget_coerceDate_none (pd : String → Int) (p : Doc) (k : String)
    (h : jget p k = none) : jget (coerceDate pd p) k = none := by
  by_cases hk : k = "released_date"
  · subst hk
    unfold coerceDate
    rw [h]
    exact h
  · rw [jget_coerceDate_other _ _ _ hk, h]

theorem keys_coerceDate (pd : String → Int) (p : Doc) :
    (coerceDate pd p).map Prod.fst = p.map Prod.fst := by
  unfold coerceDate
  cases hrd : jget p "released_date" with
  | none => rfl
  | some v =>
    by_cases ht : v.truthy
    · simp [ht, keys_setKey_of_mem _ _ _ _ hrd]
    · simp [ht]

theorem jget_coerceDate_str (pd : String → Int) (p : Doc) (s : String)
    (h : jget p "released_date" = some (.str s)) (hs : s ≠ "") :
    jget (coerceDate pd p) "released_date" = some (.date (pd s)) := by
  unfold coerceDate
  rw [h]
  simp [JVal.truthy, hs, jget_setKey_same, jsNewDate]

/-! ### Store operation lemmas -/

theorem findByField_append (l1 l2 : List Doc) (k : String) (v : JVal) :
    findByField (l1 ++ l2) k v =
      (findByField l1 k v).or (findByField l2 k v) := by
  simp [findByField, List.find?_append]

theorem updateDocs_split (n : Nat) (p : Doc) (pre post : List Doc) (d : Doc)
    (hpre : ∀ d' ∈ pre, jget d' "_id" ≠ some (.oid n))
    (hd : jget d "_id" = some (.oid n)) :
    updateDocs n p (pre ++ d :: post) =
      ((1, if applySet d p == d then 0 else 1), pre ++ applySet d p :: post) := by
  induction pre with
  | nil => simp [updateDocs, hd]
  | cons d0 rest ih =>
    have h0 : (jget d0 "_id" == some (JVal.oid n)) = false := by
      simpa using hpre d0 (List.mem_cons_self _ _)
    have hrec := ih (fun d' hd' => hpre d' (List.mem_cons_of_mem _ hd'))
    simp [updateDocs, h0, hrec]

/-! ### Substring characterization -/

theorem leadsList_iff (s : List Char) (l : List Char) :
    leadsList s l = true ↔ ∃ r, l = s ++ r := by
  induction s generalizing l with
  | nil => simp [leadsList]
  | cons a as ih =>
    cases l with
    | nil => simp [leadsList]
    | cons b bs =>
      simp only [leadsList, Bool.and_eq_true, beq_iff_eq, ih,
        List.cons_append, List.cons.injEq]
      constructor
      · rintro ⟨rfl, r, rfl⟩
        exact ⟨r, rfl, rfl⟩
      · rintro ⟨r, rfl, rfl⟩
        exact ⟨rfl, r, rfl⟩

theorem occursIn_iff (s : List Char) (l : List Char) :
    occursIn s l = true ↔ ∃ p q, l = p ++ s ++ q := by
  induction l with
  | nil =>
    show leadsList s [] = true ↔ _
    rw [leadsList_iff]
    constructor
    · rintro ⟨r, hr⟩
      exact ⟨[], r, by simpa using hr⟩
    · rintro ⟨p, q, hpq⟩
      refine ⟨q, ?_⟩
      rcases List.append_eq_nil.mp (List.append_eq_nil.mp hpq.symm).1 with ⟨rfl, rfl⟩
      simpa using hpq
  | cons b bs ih =>
    simp only [occursIn, Bool.or_eq_true, leadsList_iff, ih]
    constructor
    · rintro (⟨r, hr⟩ | ⟨p, q, hpq⟩)
      · exact ⟨[], r, by simpa using hr⟩
      · exact ⟨b :: p, q, by simp [hpq]⟩
    · rintro ⟨p, q, hpq⟩
      cases p with
      | nil =>
        exact Or.inl ⟨q, by simpa using hpq⟩
      | cons p0 ps =>
        simp only [List.cons_append, List.cons.injEq] at hpq
        exact Or.inr ⟨ps, q, hpq.2⟩

theorem mem_jvalStrs (v : JVal) (s : String) :
    s ∈ jvalStrs v ↔ v = .str s := by
  cases v <;> simp [jvalStrs, eq_comm]

/-! ### Product filter characterization -/

theorem categoryClause_iff (oc : Option String) (d : Doc) :
    (if truthyQ oc then jget d "category" == some (.str (oc.getD ""))
     else true) = true ↔
      (∀ c, oc = some c → c ≠ "" → specCategoryMatch c d) := by
  cases oc with
  | none => simp [truthyQ]
  | some c =>
    by_cases hc : c = ""
    · subst hc
      simp [truthyQ]
    · simp [truthyQ, hc, specCategoryMatch]

theorem searchClause_iff (os : Option String) (d : Doc) :
    (if truthyQ os then
       (match jget d "title" with
        | some (.str t) => regexMatchCI (os.getD "") t
        | _ => false)
     else true) = true ↔
      (∀ s, os = some s → s ≠ "" → specSearchMatch s d) := by
  cases os with
  | none => simp [truthyQ]
  | some s =>
    by_cases hs : s = ""
    · subst hs
      simp [truthyQ]
    · cases ht : jget d "title" with
      | none => simp [truthyQ, hs, specSearchMatch, ht]
      | some v =>
        cases v <;>
          simp [truthyQ, hs, specSearchMatch, ht, regexMatchCI, occursIn_iff]

theorem productFilter_iff (q : ListQuery) (d : Doc) :
    productFilter q d = true ↔
      (∀ c, q.category = some c → c ≠ "" → specCategoryMatch c d) ∧
      (∀ s, q.search = some s → s ≠ "" → specSearchMatch s d) := by
  obtain ⟨oc, os⟩ := q
  simp only [productFilter, Bool.and_eq_true]
  rw [categoryClause_iff, searchClause_iff]

/-! ### Claim theorems -/

/-- C1: for every signup request with all four fields present and non-empty
and no stored user with a matching email, exactly one new user document is
inserted, carrying the given name, email and username, the salted hash of
the password (and, whenever the hash differs from the password, not the
password itself), and the server-assigned creation timestamp; the response
reports success with the new document's identifier. -/
theorem signup_valid_inserts (hashFn : String → String) (now : Int)
    (req : SignupReq) (st : Store)
    (hn : truthyStr req.name = true) (he : truthyStr req.email = true)
    (hu : truthyStr req.username = true) (hp : truthyStr req.password = true)
    (hfind : findByField st.docs "email" (.str req.email) = none) :
    (signup hashFn now req st).2.docs = st.docs ++
      [[("_id", JVal.oid st.nextId), ("name", .str req.name),
        ("email", .str req.email), ("username", .str req.username),
        ("password", .str (hashFn req.password)),
        ("createdAt", .date now)]] ∧
    (signup hashFn now req st).2.nextId = st.nextId + 1 ∧
    (signup hashFn now req st).1 =
      ⟨200, .obj [("success", .prim (.bool true)),
                  ("message", .prim (.str "User registered successfully")),
                  ("userId", .prim (.oid st.nextId))]⟩ ∧
    (hashFn req.password ≠ req.password →
      jget [("_id", JVal.oid st.nextId), ("name", .str req.name),
            ("email", .str req.email), ("username", .str req.username),
            ("password", .str (hashFn req.password)),
            ("createdAt", .date now)] "password" ≠
        some (.str req.password)) := by
  refine ⟨?_, ?_, ?_, ?_⟩
  · simp [signup, hn, he, hu, hp, hfind, insertOne, signupDoc]
  · simp [signup, hn, he, hu, hp, hfind, insertOne]
  · simp [signup, hn, he, hu, hp, hfind, insertOne]
  · intro hne
    simp [jget, hne]

/-- C2: a signup whose email exactly matches a stored user's email gets a
409 conflict response and leaves the user store unchanged. -/
theorem signup_duplicate_email_conflict (hashFn : String → String)
    (now : Int) (req : SignupReq) (st : Store)
    (hn : truthyStr req.name = true) (he : truthyStr req.email = true)
    (hu : truthyStr req.username = true) (hp : truthyStr req.password = true)
    (u : Doc) (hfind : findByField st.docs "email" (.str req.email) = some u) :
    signup hashFn now req st =
      (⟨409, .obj [("error", .prim (.str "Email already registered"))]⟩, st) := by
  simp [signup, hn, he, hu, hp, hfind, errResp]

/-- C3: a login whose lower-cased email matches no stored user and a login
whose email matches a stored user but whose password fails the hash
comparison produce identical responses: status 401 with the same
undifferentiated invalid-credentials body. -/
theorem login_errors_indistinguishable (compareFn : String → String → Bool)
    (r1 r2 : LoginReq) (st : Store)
    (h1e : truthyStr r1.email = true) (h1p : truthyStr r1.password = true)
    (h2e : truthyStr r2.email = true) (h2p : truthyStr r2.password = true)
    (hnone : findByField st.docs "email" (.str (strToLower r1.email)) = none)
    (u : Doc)
    (hsome : findByField st.docs "email" (.str (strToLower r2.email)) = some u)
    (h : String) (hpw : jget u "password" = some (.str h))
    (hcmp : compareFn r2.password h = false) :
    login compareFn r1 st = login compareFn r2 st ∧
    login compareFn r1 st =
      ⟨401, .obj [("error", .prim (.str "Invalid credentials"))]⟩ := by
  have e1 : login compareFn r1 st =
      ⟨401, .obj [("error", .prim (.str "Invalid credentials"))]⟩ := by
    simp [login, h1e, h1p, hnone, errResp]
  have e2 : login compareFn r2 st =
      ⟨401, .obj [("error", .prim (.str "Invalid credentials"))]⟩ := by
    simp [login, h2e, h2p, hsome, hpw, hcmp, errResp]
  exact ⟨e1.trans e2.symm, e1⟩

/-- C4: a successful login responds with exactly the public user view (id,
name, email, username); in particular the stored password hash is absent
from the body whenever it differs from those four public values. -/
theorem login_success_public_view (compareFn : String → String → Bool)
    (r : LoginReq) (st : Store)
    (he : truthyStr r.email = true) (hp : truthyStr r.password = true)
    (u : Doc)
    (hfind : findByField st.docs "email" (.str (strToLower r.email)) = some u)
    (h : String) (hpw : jget u "password" = some (.str h))
    (hcmp : compareFn r.password h = true)
    (n : Nat) (hid : jget u "_id" = some (.oid n))
    (nv ev uv : JVal) (hnm : jget u "name" = some nv)
    (hem : jget u "email" = some ev) (hun : jget u "username" = some uv) :
    login compareFn r st =
      ⟨200, .obj [("success", .prim (.bool true)),
                  ("user", .nested [("id", .str (oidToString n)), ("name", nv),
                                    ("email", ev), ("username", uv)])]⟩ ∧
    (h ≠ oidToString n → nv ≠ .str h → ev ≠ .str h → uv ≠ .str h →
      h ∉ bodyStrs (login compareFn r st).body) := by
  have e : login compareFn r st =
      ⟨200, .obj [("success", .prim (.bool true)),
                  ("user", .nested [("id", .str (oidToString n)), ("name", nv),
                                    ("email", ev), ("username", uv)])]⟩ := by
    simp [login, he, hp, hfind, hpw, hcmp, hid, jsToString, viewField,
      hnm, hem, hun]
  refine ⟨e, ?_⟩
  intro hidne hnne hene hune
  have hb : bodyStrs (Body.obj [("success", BVal.prim (JVal.bool true)),
      ("user", BVal.nested [("id", JVal.str (oidToString n)), ("name", nv),
        ("email", ev), ("username", uv)])]) =
      [oidToString n] ++ jvalStrs nv ++ jvalStrs ev ++ jvalStrs uv := by
    simp [bodyStrs, bvalStrs, jvalStrs]
  rw [e, hb]
  simp only [List.mem_append, List.mem_singleton, mem_jvalStrs]
  tauto

/-- C5: once a user with the request email exists, google-signup inserts and
modifies nothing and returns the stored user unchanged with success; hence a
second call with the same email never changes the store, so no duplicate
user document is ever created. -/
theorem googleSignup_idempotent_existing (now now2 : Int) (req : GoogleReq)
    (st : Store)
    (he : truthyStr req.email = true) (hn : truthyStr req.name = true)
    (hg : truthyStr req.googleId = true)
    (u : Doc) (hfind : findByField st.docs "email" (.str req.email) = some u) :
    googleSignup now req st =
      (⟨200, .obj [("success", .prim (.bool true)), ("user", .nested u)]⟩, st) ∧
    (∀ st0 : Store,
      (googleSignup now2 req (googleSignup now req st0).2).2 =
        (googleSignup now req st0).2) := by
  constructor
  · simp [googleSignup, he, hn, hg, hfind]
  · intro st0
    cases hf0 : findByField st0.docs "email" (.str req.email) with
    | some u0 =>
      simp [googleSignup, he, hn, hg, hf0]
    | none =>
      have hsnd : (googleSignup now req st0).2 =
          ⟨st0.docs ++ [("_id", JVal.oid st0.nextId) :: googleDoc now req],
           st0.nextId + 1⟩ := by
        simp [googleSignup, he, hn, hg, hf0, insertOne]
      rw [hsnd]
      have hfind2 : findByField
          (st0.docs ++ [("_id", JVal.oid st0.nextId) :: googleDoc now req])
          "email" (.str req.email) =
          some (("_id", JVal.oid st0.nextId) :: googleDoc now req) := by
        rw [findByField_append, hf0]
        simp [findByField, googleDoc, jget]
      simp [googleSignup, he, hn, hg, hfind2]

/-- C6: listProducts returns exactly the stored documents satisfying the
conjunction of the provided conditions — category equal to the category
parameter when given, title containing the search parameter as a
case-insensitive substring when given — and the entire collection when
neither is given. -/
theorem listProducts_exact (q : ListQuery) (st : Store) :
    (∀ d, d ∈ resultDocs (listProducts q st) ↔
       d ∈ st.docs ∧
       (∀ c, q.category = some c → c ≠ "" → specCategoryMatch c d) ∧
       (∀ s, q.search = some s → s ≠ "" → specSearchMatch s d)) ∧
    (q = ⟨none, none⟩ → listProducts q st = ⟨200, .arr st.docs⟩) := by
  constructor
  · intro d
    rw [← productFilter_iff]
    simp [resultDocs, listProducts, List.mem_filter]
  · rintro rfl
    simp [listProducts, productFilter, truthyQ, List.filter_true]

/-- C7: with a well-formed identifier, updateProduct shallow-merges exactly
the keys present in the patch onto the matched document: absent keys keep
their stored value, present keys take the patch value, and a truthy string
released_date is coerced to a date value beforehand. -/
theorem updateProduct_shallow_merge (parseDate : String → Int) (id : String)
    (patch : Doc) (st : Store) (d : Doc) (pre post : List Doc)
    (hid : isValidObjectId id = true)
    (hnodup : (patch.map Prod.fst).Nodup)
    (hsplit : st.docs = pre ++ d :: post)
    (hd : jget d "_id" = some (.oid (hexToNat id)))
    (hpre : ∀ d' ∈ pre, jget d' "_id" ≠ some (.oid (hexToNat id))) :
    (updateProduct parseDate id patch st).1.status = 200 ∧
    (updateProduct parseDate id patch st).2.docs =
      pre ++ applySet d (coerceDate parseDate patch) :: post ∧
    (∀ k, jget patch k = none →
      jget (applySet d (coerceDate parseDate patch)) k = jget d k) ∧
    (∀ k v, k ≠ "released_date" → jget patch k = some v →
      jget (applySet d (coerceDate parseDate patch)) k = some v) ∧
    (∀ s, jget patch "released_date" = some (.str s) → s ≠ "" →
      jget (applySet d (coerceDate parseDate patch)) "released_date" =
        some (.date (parseDate s))) := by
  have hnodup' : ((coerceDate parseDate patch).map Prod.fst).Nodup := by
    rw [keys_coerceDate]
    exact hnodup
  have hupd := updateDocs_split (hexToNat id) (coerceDate parseDate patch)
    pre post d hpre hd
  refine ⟨?_, ?_, ?_, ?_, ?_⟩
  · simp [updateProduct, hid]
  · simp [updateProduct, hid, hsplit, hupd]
  · intro k hk
    exact jget_applySet_of_none _ _ _ (jget_coerceDate_none _ _ _ hk)
  · intro k v hk hv
    refine jget_applySet_of_some _ _ _ _ hnodup' ?_
    rw [jget_coerceDate_other _ _ _ hk]
    exact hv
  · intro s hs hne
    exact jget_applySet_of_some _ _ _ _ hnodup'
      (jget_coerceDate_str _ _ _ hs hne)

/-- C8: a malformed identifier is rejected up front by updateProduct with
status 400, while getProduct and deleteProduct perform no format check and
surface the failed identifier parse as a 500 error; no store mutation
happens in any of the three cases. -/
theorem invalid_id_error_asymmetry (parseDate : String → Int) (id : String)
    (patch : Doc) (st : Store) (hid : isValidObjectId id = false) :
    (updateProduct parseDate id patch st).1.status = 400 ∧
    (updateProduct parseDate id patch st).2 = st ∧
    (getProduct id st).status = 500 ∧
    (deleteProduct id st).1.status = 500 ∧
    (deleteProduct id st).2 = st := by
  refine ⟨?_, ?_, ?_, ?_, ?_⟩ <;>
    simp [updateProduct, getProduct, deleteProduct, newObjectId, hid, errResp]

/-- C9: normalization is asymmetric — signup stores the email exactly as
supplied while login looks up by the lower-cased email — so a signup with a
mixed-case email followed by a login with the very same credentials fails
with 401. -/
theorem email_normalization_asymmetry (hashFn : String → String)
    (compareFn : String → String → Bool) (now : Int) (req : SignupReq)
    (st : Store)
    (hn : truthyStr req.name = true) (he : truthyStr req.email = true)
    (hu : truthyStr req.username = true) (hp : truthyStr req.password = true)
    (hmix : (strToLower req.email) ≠ req.email)
    (hfind : findByField st.docs "email" (.str req.email) = none)
    (hlow : findByField st.docs "email" (.str (strToLower req.email)) = none) :
    (signup hashFn now req st).2.docs = st.docs ++
      [("_id", JVal.oid st.nextId) :: signupDoc hashFn now req] ∧
    jget (("_id", JVal.oid st.nextId) :: signupDoc hashFn now req) "email" =
      some (.str req.email) ∧
    login compareFn ⟨req.email, req.password⟩ (signup hashFn now req st).2 =
      ⟨401, .obj [("error", .prim (.str "Invalid credentials"))]⟩ := by
  have hdocs : (signup hashFn now req st).2.docs = st.docs ++
      [("_id", JVal.oid st.nextId) :: signupDoc hashFn now req] := by
    simp [signup, hn, he, hu, hp, hfind, insertOne]
  refine ⟨hdocs, ?_, ?_⟩
  · simp [jget, signupDoc]
  · have hfl : findByField ((signup hashFn now req st).2.docs) "email"
        (.str (strToLower req.email)) = none := by
      rw [hdocs, findByField_append, hlow]
      simp [findByField, signupDoc, jget, Ne.symm hmix]
    simp [login, he, hp, hfl, errResp]

/-- C10: when the request email matches an existing user, google-signup's
200 response returns the full stored user document verbatim, so a stored
password hash field appears among the response body's string values — the
login path's "hash is never returned" guarantee does not hold here. -/
theorem googleSignup_returns_stored_hash (now : Int) (req : GoogleReq)
    (st : Store)
    (he : truthyStr req.email = true) (hn : truthyStr req.name = true)
    (hg : truthyStr req.googleId = true)
    (u : Doc) (hfind : findByField st.docs "email" (.str req.email) = some u)
    (h : String) (hpw : ("password", JVal.str h) ∈ u) :
    (googleSignup now req st).1 =
      ⟨200, .obj [("success", .prim (.bool true)), ("user", .nested u)]⟩ ∧
    h ∈ bodyStrs (googleSignup now req st).1.body := by
  have e : (googleSignup now req st).1 =
      ⟨200, .obj [("success", .prim (.bool true)), ("user", .nested u)]⟩ := by
    simp [googleSignup, he, hn, hg, hfind]
  refine ⟨e, ?_⟩
  rw [e]
  simp only [bodyStrs, bvalStrs, jvalStrs, List.flatMap_cons, List.flatMap_nil,
    List.nil_append, List.append_nil, List.mem_append]
  exact List.mem_flatMap.mpr ⟨("password", .str h), hpw, by simp [jvalStrs]⟩

/-! ### Concrete witnesses -/

/-- Witness for C1: a valid signup against an empty store. -/
theorem signup_valid_inserts_witness :
    (signup (fun p => "H" ++ p) 5 ⟨"Ann", "a@b", "ann", "pw"⟩ ⟨[], 0⟩).1 =
      ⟨200, .obj [("success", .prim (.bool true)),
                  ("message", .prim (.str "User registered successfully")),
                  ("userId", .prim (.oid 0))]⟩ :=
  (signup_valid_inserts (fun p => "H" ++ p) 5 ⟨"Ann", "a@b", "ann", "pw"⟩
    ⟨[], 0⟩ (by decide) (by decide) (by decide) (by decide) rfl).2.2.1

/-- Witness for C2: a signup re-using a stored email. -/
theorem signup_duplicate_email_conflict_witness :
    signup (fun p => "H" ++ p) 5 ⟨"Bob", "a@b", "bob", "pw"⟩
      ⟨[[("_id", JVal.oid 0), ("email", JVal.str "a@b")]], 1⟩ =
      (⟨409, .obj [("error", .prim (.str "Email already registered"))]⟩,
       ⟨[[("_id", JVal.oid 0), ("email", JVal.str "a@b")]], 1⟩) :=
  signup_duplicate_email_conflict (fun p => "H" ++ p) 5
    ⟨"Bob", "a@b", "bob", "pw"⟩
    ⟨[[("_id", JVal.oid 0), ("email", JVal.str "a@b")]], 1⟩
    (by decide) (by decide) (by decide) (by decide)
    [("_id", JVal.oid 0), ("email", JVal.str "a@b")] (by decide)

/-- Witness for C3: unknown email versus wrong password, same response. -/
theorem login_errors_indistinguishable_witness :
    login (fun _ _ => false) ⟨"z@z", "pw"⟩
      ⟨[[("_id", JVal.oid 0), ("name", JVal.str "Ann"),
         ("email", JVal.str "a@b"), ("username", JVal.str "ann"),
         ("password", JVal.str "HH"), ("createdAt", JVal.date 0)]], 1⟩ =
      login (fun _ _ => false) ⟨"a@b", "pw"⟩
      ⟨[[("_id", JVal.oid 0), ("name", JVal.str "Ann"),
         ("email", JVal.str "a@b"), ("username", JVal.str "ann"),
         ("password", JVal.str "HH"), ("createdAt", JVal.date 0)]], 1⟩ :=
  (login_errors_indistinguishable (fun _ _ => false) ⟨"z@z", "pw"⟩
    ⟨"a@b", "pw"⟩
    ⟨[[("_id", JVal.oid 0), ("name", JVal.str "Ann"),
       ("email", JVal.str "a@b"), ("username", JVal.str "ann"),
       ("password", JVal.str "HH"), ("createdAt", JVal.date 0)]], 1⟩
    (by decide) (by decide) (by decide) (by decide) (by decide)
    [("_id", JVal.oid 0), ("name", JVal.str "Ann"),
     ("email", JVal.str "a@b"), ("username", JVal.str "ann"),
     ("password", JVal.str "HH"), ("createdAt", JVal.date 0)]
    (by decide) "HH" (by decide) rfl).1

/-- Witness for C4: a successful login returns only the public view. -/
theorem login_success_public_view_witness :
    login (fun _ _ => true) ⟨"a@b", "pw"⟩
      ⟨[[("_id", JVal.oid 0), ("name", JVal.str "Ann"),
         ("email", JVal.str "a@b"), ("username", JVal.str "ann"),
         ("password", JVal.str "HH"), ("createdAt", JVal.date 0)]], 1⟩ =
      ⟨200, .obj [("success", .prim (.bool true)),
                  ("user", .nested [("id", .str (oidToString 0)),
                                    ("name", .str "Ann"),
                                    ("email", .str "a@b"),
                                    ("username", .str "ann")])]⟩ :=
  (login_success_public_view (fun _ _ => true) ⟨"a@b", "pw"⟩
    ⟨[[("_id", JVal.oid 0), ("name", JVal.str "Ann"),
       ("email", JVal.str "a@b"), ("username", JVal.str "ann"),
       ("password", JVal.str "HH"), ("createdAt", JVal.date 0)]], 1⟩
    (by decide) (by decide)
    [("_id", JVal.oid 0), ("name", JVal.str "Ann"),
     ("email", JVal.str "a@b"), ("username", JVal.str "ann"),
     ("password", JVal.str "HH"), ("createdAt", JVal.date 0)]
    (by decide) "HH" (by decide) rfl 0 (by decide)
    (.str "Ann") (.str "a@b") (.str "ann")
    (by decide) (by decide) (by decide)).1

/-- Witness for C5: google-signup with an already-stored email. -/
theorem googleSignup_idempotent_existing_witness :
    googleSignup 7 ⟨"a@b", "Ann", "g1"⟩
      ⟨[[("_id", JVal.oid 0), ("name", JVal.str "Ann"),
         ("email", JVal.str "a@b"), ("username", JVal.str "ann"),
         ("password", JVal.str "HH"), ("createdAt", JVal.date 0)]], 1⟩ =
      (⟨200, .obj [("success", .prim (.bool true)),
                   ("user", .nested [("_id", JVal.oid 0),
                                     ("name", JVal.str "Ann"),
                                     ("email", JVal.str "a@b"),
                                     ("username", JVal.str "ann"),
                                     ("password", JVal.str "HH"),
                                     ("createdAt", JVal.date 0)])]⟩,
       ⟨[[("_id", JVal.oid 0), ("name", JVal.str "Ann"),
          ("email", JVal.str "a@b"), ("username", JVal.str "ann"),
          ("password", JVal.str "HH"), ("createdAt", JVal.date 0)]], 1⟩) :=
  (googleSignup_idempotent_existing 7 8 ⟨"a@b", "Ann", "g1"⟩
    ⟨[[("_id", JVal.oid 0), ("name", JVal.str "Ann"),
       ("email", JVal.str "a@b"), ("username", JVal.str "ann"),
       ("password", JVal.str "HH"), ("createdAt", JVal.date 0)]], 1⟩
    (by decide) (by decide) (by decide)
    [("_id", JVal.oid 0), ("name", JVal.str "Ann"),
     ("email", JVal.str "a@b"), ("username", JVal.str "ann"),
     ("password", JVal.str "HH"), ("createdAt", JVal.date 0)]
    (by decide)).1

/-- Witness for C6: with neither parameter given the whole collection comes
back. -/
theorem listProducts_exact_witness :
    listProducts ⟨none, none⟩ ⟨[[("title", JVal.str "A")]], 1⟩ =
      ⟨200, .arr [[("title", JVal.str "A")]]⟩ :=
  (listProducts_exact ⟨none, none⟩ ⟨[[("title", JVal.str "A")]], 1⟩).2 rfl

/-- Witness for C7: a patch on a stored product is accepted with 200. -/
theorem updateProduct_shallow_merge_witness :
    (updateProduct (fun _ => 111) "00000000000000000000000a"
      [("title", JVal.str "New")]
      ⟨[[("_id", JVal.oid 10), ("price", JVal.num 5)]], 11⟩).1.status = 200 :=
  (updateProduct_shallow_merge (fun _ => 111) "00000000000000000000000a"
    [("title", JVal.str "New")]
    ⟨[[("_id", JVal.oid 10), ("price", JVal.num 5)]], 11⟩
    [("_id", JVal.oid 10), ("price", JVal.num 5)] [] []
    (by decide) (by decide) rfl (by decide) (by simp)).1

/-- Witness for C8: a malformed id gets 400 from update but 500 from get
and delete. -/
theorem invalid_id_error_asymmetry_witness :
    (updateProduct (fun _ => 0) "nope" [] ⟨[], 0⟩).1.status = 400 ∧
    (getProduct "nope" ⟨[], 0⟩).status = 500 ∧
    (deleteProduct "nope" ⟨[], 0⟩).1.status = 500 := by
  have h := invalid_id_error_asymmetry (fun _ => 0) "nope" [] ⟨[], 0⟩ (by decide)
  exact ⟨h.1, h.2.2.1, h.2.2.2.1⟩

/-- Witness for C9: signup with a mixed-case email, then login with the very
same credentials, is rejected with 401. -/
theorem email_normalization_asymmetry_witness :
    login (fun _ _ => true) ⟨"A@b", "pw"⟩
      (signup (fun p => "H" ++ p) 5 ⟨"Ann", "A@b", "ann", "pw"⟩ ⟨[], 0⟩).2 =
      ⟨401, .obj [("error", .prim (.str "Invalid credentials"))]⟩ :=
  (email_normalization_asymmetry (fun p => "H" ++ p) (fun _ _ => true) 5
    ⟨"Ann", "A@b", "ann", "pw"⟩ ⟨[], 0⟩
    (by decide) (by decide) (by decide) (by decide) (by decide) rfl rfl).2.2

/-- Witness for C10: the stored hash "HH" appears in the google-signup
response body. -/
theorem googleSignup_returns_stored_hash_witness :
    "HH" ∈ bodyStrs (googleSignup 7 ⟨"a@b", "Bob", "g1"⟩
      ⟨[[("_id", JVal.oid 0), ("name", JVal.str "Ann"),
         ("email", JVal.str "a@b"), ("username", JVal.str "ann"),
         ("password", JVal.str "HH"), ("createdAt", JVal.date 0)]], 1⟩).1.body :=
  (googleSignup_returns_stored_hash 7 ⟨"a@b", "Bob", "g1"⟩
    ⟨[[("_id", JVal.oid 0), ("name", JVal.str "Ann"),
       ("email", JVal.str "a@b"), ("username", JVal.str "ann"),
       ("password", JVal.str "HH"), ("createdAt", JVal.date 0)]], 1⟩
    (by decide) (by decide) (by decide)
    [("_id", JVal.oid 0), ("name", JVal.str "Ann"),
     ("email", JVal.str "a@b"), ("username", JVal.str "ann"),
     ("password", JVal.str "HH"), ("createdAt", JVal.date 0)]
    (by decide) "HH" (by decide)).2
